import Mathlib

/-!
Verification development for the Civic-Issues employee mobile client.

The client consists of four screens (login, complaint list, complaint
detail, profile) built around a shared auth provider.  The session and
request lifecycle is embedded here as pure functions over an explicit
`World` record that carries the in-memory auth state, the persisted
key-value store, and the observable effects (alert dialogs, navigations,
network requests).  Backend responses and storage outcomes are passed in
as explicit parameters, so every operation is a deterministic function of
its inputs.

Source correspondence (paths inside the repository):
- `app/index.tsx` (second document in `app/(tabs)/home.tsx`):
  `checkAuthStatus`, `login`, `logout`, `handleLogin`;
- `app/(tabs)/home.tsx` (first document): `fetchComplaints`;
- `app/(tabs)/home.tsx` (third document, complaint detail screen):
  `fetchComplaint`, `updateComplaintStatus`, `uploadProgressPhoto`;
- `app/(tabs)/profile.tsx`: `fetchProfile`.

JavaScript numbers that the claims never inspect (performance counters,
geocoordinates) are modelled as `Nat`/`Int`; JSON bodies are modelled as
already-parsed records with `Option` fields for fields the code reads
without a presence check, plus an explicit `malformed` case standing for
`response.json()` throwing.
-/

namespace CivicIssues

/-! ## Data model -/

/-- `performance_stats` object of the `Employee` interface in `app/index.tsx`. -/
structure PerformanceStats where
  total_complaints_resolved : Nat
  total_complaints_assigned : Nat
  resolution_rate : Nat
  last_activity : String
deriving DecidableEq, Repr

/-- `Employee` interface in `app/index.tsx`. -/
structure Employee where
  id : String
  employee_id : String
  name : String
  email : String
  department : String
  contact_phone : String
  is_active : Bool
  created_at : String
  performance_stats : PerformanceStats
deriving DecidableEq, Repr

/-- `Complaint` interface of the complaint-list screen in `app/(tabs)/home.tsx`. -/
structure Complaint where
  id : String
  title : String
  description : String
  citizen_name : String
  citizen_phone : String
  category : String
  priority : String
  status : String
  color_code : String
  location_address : String
  citizen_image : Option String
  assigned_employee_name : Option String
  created_at : String
  updated_at : String
deriving DecidableEq, Repr

/-- One entry of `progress_photos` in the `ComplaintDetail` interface. -/
structure ProgressPhoto where
  image : String
  note : Option String
  timestamp : String
  added_by : String
  employee_id : String
deriving DecidableEq, Repr

/-- `ComplaintDetail` interface of the complaint-detail screen.
Geocoordinates are modelled as an integer pair: no claim inspects them. -/
structure ComplaintDetail where
  id : String
  title : String
  description : String
  citizen_name : String
  citizen_phone : String
  citizen_email : Option String
  category : String
  priority : String
  status : String
  color_code : String
  location_address : String
  location_coordinates : Option (Int × Int)
  citizen_image : Option String
  assigned_employee_id : Option String
  assigned_employee_name : Option String
  progress_photos : List ProgressPhoto
  created_at : String
  updated_at : String
deriving DecidableEq, Repr

/-- `ProfileData` interface in `app/(tabs)/profile.tsx` (same shape as
`Employee`, declared separately in the source). -/
structure ProfileData where
  id : String
  employee_id : String
  name : String
  email : String
  department : String
  contact_phone : String
  is_active : Bool
  created_at : String
  performance_stats : PerformanceStats
deriving DecidableEq, Repr

/-- In-memory state of the auth provider: the `employee`, `token` and
`isLoading` `useState` cells of `AuthProvider` in `app/index.tsx`. -/
structure AuthState where
  token : Option String
  employee : Option Employee
  isLoading : Bool
deriving DecidableEq, Repr

/-- `useState` initial values: `useState(null)`, `useState(null)`,
`useState(true)`. -/
def initialAuthState : AuthState :=
  { token := none, employee := none, isLoading := true }

/-- The persisted `AsyncStorage` entries under keys `auth_token` and
`employee_data` (the latter a serialized JSON string). -/
structure Store where
  auth_token : Option String
  employee_data : Option String
deriving DecidableEq, Repr

/-- Bodies of the requests the client issues. -/
inductive ReqBody where
  | loginBody (employee_id password : String)
  | statusUpdate (status : String)
      (assigned_employee_id assigned_employee_name : Option String)
  | progressPhoto (complaint_id image note : String)
deriving DecidableEq, Repr

/-- An HTTP request as issued by `fetch`: method, path (the configured
origin prefix is elided), the bearer token attached in the
`Authorization` header if any, and the JSON body if any. -/
structure Request where
  method : String
  url : String
  bearer : Option String
  body : Option ReqBody
deriving DecidableEq, Repr

/-- The whole observable world: auth provider state, persisted store, and
the accumulated effects (alert dialogs as title-message pairs, router
navigations, issued network requests). -/
structure World where
  state : AuthState
  store : Store
  alerts : List (String × String)
  navs : List String
  requests : List Request
deriving DecidableEq, Repr

/-- World at first install: empty store, provider state at its `useState`
initial values, no effects yet. -/
def initialWorld : World :=
  { state := initialAuthState
    store := { auth_token := none, employee_data := none }
    alerts := []
    navs := []
    requests := [] }

/-! ## Environment inputs -/

/-- Parsed body of the login response.  `malformed` stands for
`response.json()` throwing; `parsed` is a JSON object whose fields
(`access_token`, `employee`, `detail`) may each be absent, since the code
reads them without presence checks. -/
inductive LoginBody where
  | malformed
  | parsed (access_token : Option String) (employee : Option Employee)
      (detail : Option String)
deriving DecidableEq, Repr

/-- Outcome of the login `fetch`: the promise rejects (`networkError`) or
a response with a status and a body arrives. -/
inductive LoginResp where
  | networkError
  | response (status : Nat) (body : LoginBody)
deriving DecidableEq, Repr

/-- Outcome of a data `fetch`: network failure, or a response whose body
parses to an `α` (`some`) or fails to parse (`none`). -/
inductive FetchResp (α : Type) where
  | networkError
  | response (status : Nat) (body : Option α)
deriving DecidableEq, Repr

/-- `response.ok`: status in the 2xx range. -/
def respOk (status : Nat) : Bool := 200 ≤ status && status < 300

/-- JavaScript truthiness of a string-or-absent value: `undefined`,
`null` and the empty string are falsy. -/
def truthy : Option String → Bool
  | none => false
  | some s => s != ""

/-- Characters removed by JavaScript `String.prototype.trim` (modelled by
Unicode whitespace). -/
def trimChars (l : List Char) : List Char :=
  ((l.dropWhile Char.isWhitespace).reverse.dropWhile Char.isWhitespace).reverse

/-- Model of JavaScript `String.prototype.trim`. -/
def jsTrim (s : String) : String := String.mk (trimChars s.data)

/-! ## Auth provider operations (`app/index.tsx`) -/

/-- `checkAuthStatus` in `AuthProvider`: reads both persisted entries; if
both are truthy it sets the token, then sets the employee to
`JSON.parse(storedEmployee)` — a parse failure throws after the token was
already set and is swallowed by the surrounding `catch`; the `finally`
clears `isLoading`.  `parse` models `JSON.parse` restricted to employee
records (`none` = throw). -/
def checkAuthStatus (parse : String → Option Employee) (w : World) : World :=
  let s := w.state
  let s1 :=
    match w.store.auth_token, w.store.employee_data with
    | some t, some e =>
      if t != "" && e != "" then
        let sTok := { s with token := some t }
        match parse e with
        | some emp => { sTok with employee := some emp }
        | none => sTok
      else s
    | _, _ => s
  { w with state := { s1 with isLoading := false } }

/-- `login` in `AuthProvider`.  `cfg` models whether `BACKEND_URL` is
configured; `stringify` models `JSON.stringify` on employee records;
`resp` is the backend's answer.  Returns the updated world and the
boolean result.  Follows the source statement by statement: the guard,
`setIsLoading(true)`, the `fetch`, the `response.ok` split (in-memory
state is set before the two `AsyncStorage.setItem` calls; `setItem` with
an `undefined` value rejects, which the `catch` turns into the
connectivity alert), the error branch reading `errorData.detail`, and the
`finally` resetting `isLoading`. -/
def login (cfg : Bool) (stringify : Employee → String) (resp : LoginResp)
    (employeeId password : String) (w : World) : World × Bool :=
  if cfg = false then
    ({ w with alerts := w.alerts ++ [("Error", "Backend URL is not configured.")] }, false)
  else
    let w1 := { w with state := { w.state with isLoading := true } }
    let w2 := { w1 with requests := w1.requests ++
      [({ method := "POST", url := "/api/auth/login", bearer := none,
          body := some (ReqBody.loginBody employeeId password) } : Request)] }
    let fin : World → Bool → World × Bool := fun wx r =>
      ({ wx with state := { wx.state with isLoading := false } }, r)
    match resp with
    | LoginResp.networkError =>
        fin { w2 with alerts := w2.alerts ++ [("Error", "Failed to connect to server")] } false
    | LoginResp.response status body =>
      if respOk status then
        match body with
        | LoginBody.malformed =>
            fin { w2 with alerts := w2.alerts ++ [("Error", "Failed to connect to server")] } false
        | LoginBody.parsed tok emp _ =>
          let w3 := { w2 with state := { w2.state with token := tok, employee := emp } }
          match tok with
          | none =>
              fin { w3 with alerts := w3.alerts ++ [("Error", "Failed to connect to server")] } false
          | some t =>
            let w4 := { w3 with store := { w3.store with auth_token := some t } }
            match emp with
            | none =>
                fin { w4 with alerts := w4.alerts ++ [("Error", "Failed to connect to server")] } false
            | some e =>
              let w5 := { w4 with store := { w4.store with employee_data := some (stringify e) } }
              fin { w5 with navs := w5.navs ++ ["/(tabs)/home"] } true
      else
        match body with
        | LoginBody.malformed =>
            fin { w2 with alerts := w2.alerts ++ [("Error", "Failed to connect to server")] } false
        | LoginBody.parsed _ _ detail =>
          let msg :=
            match detail with
            | some d => if d != "" then d else "Invalid credentials"
            | none => "Invalid credentials"
          fin { w2 with alerts := w2.alerts ++ [("Login Failed", msg)] } false

/-- `logout` in `AuthProvider`.  The two `AsyncStorage.removeItem` calls
and the in-memory clearing all sit in one `try` block whose `catch` only
logs, so a failing removal (modelled by the two success flags) aborts the
remaining statements. -/
def logout (removeTokenSucceeds removeEmployeeSucceeds : Bool) (w : World) : World :=
  if removeTokenSucceeds then
    let w1 := { w with store := { w.store with auth_token := none } }
    if removeEmployeeSucceeds then
      let w2 := { w1 with store := { w1.store with employee_data := none } }
      let w3 := { w2 with state := { w2.state with token := none, employee := none } }
      { w3 with navs := w3.navs ++ ["/"] }
    else w1
  else w

/-! ## Login screen (`LoginScreen` in `app/index.tsx`) -/

/-- Local `useState` cells of `LoginScreen`. -/
structure LoginScreenState where
  employeeId : String
  password : String
  showPassword : Bool
  isLoading : Bool
deriving DecidableEq, Repr

/-- `handleLogin` in `LoginScreen`: validates that both fields are
non-empty after trimming, then calls `auth.login(employeeId.trim(),
password)` — note the password is passed untrimmed — and clears the
password field on failure. -/
def handleLogin (cfg : Bool) (stringify : Employee → String) (resp : LoginResp)
    (ls : LoginScreenState) (w : World) : LoginScreenState × World :=
  if jsTrim ls.employeeId = "" || jsTrim ls.password = "" then
    (ls, { w with alerts := w.alerts ++ [("Error", "Please enter both Employee ID and Password")] })
  else
    let ls1 := { ls with isLoading := true }
    let res := login cfg stringify resp (jsTrim ls.employeeId) ls.password w
    let ls2 := { ls1 with isLoading := false }
    if res.2 then (ls2, res.1) else ({ ls2 with password := "" }, res.1)

/-! ## Complaint list screen (`HomeScreen` in `app/(tabs)/home.tsx`) -/

/-- Local `useState` cells of `HomeScreen`. -/
structure HomeState where
  complaints : List Complaint
  loading : Bool
  refreshing : Bool
deriving DecidableEq, Repr

/-- `fetchComplaints`: skipped entirely without a truthy token; `GET
/api/complaints` with the bearer header; 2xx stores the parsed list; 401
alerts "Session Expired" and calls `auth.logout()`; other statuses only
log; exceptions alert a generic failure; the `finally` resets `loading`
and, on refresh, `refreshing`.  `rt`/`re` are the removal outcomes
threaded to `logout`. -/
def fetchComplaints (rt re : Bool) (resp : FetchResp (List Complaint))
    (isRefresh : Bool) (h : HomeState) (w : World) : HomeState × World :=
  if truthy w.state.token = false then (h, w)
  else
    let h1 := if isRefresh = false then { h with loading := true } else h
    let w1 := { w with requests := w.requests ++
      [{ method := "GET", url := "/api/complaints", bearer := w.state.token, body := none }] }
    let step : HomeState × World :=
      match resp with
      | FetchResp.networkError =>
          (h1, { w1 with alerts := w1.alerts ++ [("Error", "Failed to load complaints")] })
      | FetchResp.response status body =>
        if respOk status then
          match body with
          | some data => ({ h1 with complaints := data }, w1)
          | none => (h1, { w1 with alerts := w1.alerts ++ [("Error", "Failed to load complaints")] })
        else if status = 401 then
          (h1, logout rt re
            { w1 with alerts := w1.alerts ++ [("Session Expired", "Please login again")] })
        else (h1, w1)
    let h3 := { step.1 with loading := false }
    let h4 := if isRefresh then { h3 with refreshing := false } else h3
    (h4, step.2)

/-! ## Complaint detail screen (third document in `app/(tabs)/home.tsx`) -/

/-- Local state of `ComplaintDetailScreen`: the `id` route parameter and
the `complaint`, `loading`, `updating` cells. -/
structure DetailState where
  id : Option String
  complaint : Option ComplaintDetail
  loading : Bool
  updating : Bool
deriving DecidableEq, Repr

/-- `fetchComplaint` on the detail screen: skipped without a truthy
token or id; `GET /api/complaints/{id}`; 2xx stores the parsed record;
401 alerts "Session Expired" and logs out; 404 alerts "Not Found" and
navigates back; exceptions alert a generic failure. -/
def fetchComplaintDetail (rt re : Bool) (resp : FetchResp ComplaintDetail)
    (d : DetailState) (w : World) : DetailState × World :=
  if truthy w.state.token = false || truthy d.id = false then (d, w)
  else
    let d1 := { d with loading := true }
    let w1 := { w with requests := w.requests ++
      [{ method := "GET", url := "/api/complaints/" ++ d.id.getD "",
         bearer := w.state.token, body := none }] }
    let step : DetailState × World :=
      match resp with
      | FetchResp.networkError =>
          (d1, { w1 with alerts := w1.alerts ++ [("Error", "Failed to load complaint details")] })
      | FetchResp.response status body =>
        if respOk status then
          match body with
          | some data => ({ d1 with complaint := some data }, w1)
          | none =>
              (d1, { w1 with alerts := w1.alerts ++ [("Error", "Failed to load complaint details")] })
        else if status = 401 then
          (d1, logout rt re
            { w1 with alerts := w1.alerts ++ [("Session Expired", "Please login again")] })
        else if status = 404 then
          (d1, { w1 with
                   alerts := w1.alerts ++ [("Not Found", "Complaint not found")]
                   navs := w1.navs ++ ["back"] })
        else (d1, w1)
    ({ step.1 with loading := false }, step.2)

/-- `updateComplaintStatus`: skipped without a truthy token or a loaded
complaint; `PUT /api/complaints/{complaint.id}` with body `{status,
assigned_employee_id, assigned_employee_name}` taken from the current
employee; on a 2xx response alerts success and re-fetches via
`fetchComplaint()` (the PUT response body is never read); on any other
response alerts a generic error; the `finally` resets `updating`.
`getResp` is the response to the chained re-fetch. -/
def updateComplaintStatus (rt re : Bool) (putResp : FetchResp ComplaintDetail)
    (getResp : FetchResp ComplaintDetail) (newStatus : String)
    (d : DetailState) (w : World) : DetailState × World :=
  if truthy w.state.token = false then (d, w)
  else
    match d.complaint with
    | none => (d, w)
    | some c =>
      let d1 := { d with updating := true }
      let w1 := { w with requests := w.requests ++
        [({ method := "PUT", url := "/api/complaints/" ++ c.id, bearer := w.state.token,
            body := some (ReqBody.statusUpdate newStatus
              (w.state.employee.map Employee.employee_id)
              (w.state.employee.map Employee.name)) } : Request)] }
      let step : DetailState × World :=
        match putResp with
        | FetchResp.networkError =>
            (d1, { w1 with alerts := w1.alerts ++ [("Error", "Failed to update complaint")] })
        | FetchResp.response status _ =>
          if respOk status then
            fetchComplaintDetail rt re getResp d1
              { w1 with alerts := w1.alerts ++
                [("Success", "Complaint status updated to " ++ newStatus)] }
          else
            (d1, { w1 with alerts := w1.alerts ++ [("Error", "Failed to update complaint status")] })
      ({ step.1 with updating := false }, step.2)

/-- `uploadProgressPhoto`: skipped without a truthy token or a loaded
complaint; `POST /api/complaints/{complaint.id}/progress-photo` with body
`{complaint_id, image, note: "Progress update"}`; on a 2xx response
alerts success and re-fetches via `fetchComplaint()`; on any other
response alerts a generic error; the `finally` resets `updating`. -/
def uploadProgressPhoto (rt re : Bool) (postResp : FetchResp ComplaintDetail)
    (getResp : FetchResp ComplaintDetail) (base64Image : String)
    (d : DetailState) (w : World) : DetailState × World :=
  if truthy w.state.token = false then (d, w)
  else
    match d.complaint with
    | none => (d, w)
    | some c =>
      let d1 := { d with updating := true }
      let w1 := { w with requests := w.requests ++
        [({ method := "POST", url := "/api/complaints/" ++ c.id ++ "/progress-photo",
            bearer := w.state.token,
            body := some (ReqBody.progressPhoto c.id base64Image "Progress update") } : Request)] }
      let step : DetailState × World :=
        match postResp with
        | FetchResp.networkError =>
            (d1, { w1 with alerts := w1.alerts ++ [("Error", "Failed to upload photo")] })
        | FetchResp.response status _ =>
          if respOk status then
            fetchComplaintDetail rt re getResp d1
              { w1 with alerts := w1.alerts ++ [("Success", "Progress photo added successfully")] }
          else
            (d1, { w1 with alerts := w1.alerts ++ [("Error", "Failed to upload progress photo")] })
      ({ step.1 with updating := false }, step.2)

/-! ## Profile screen (`app/(tabs)/profile.tsx`) -/

/-- Local `useState` cells of `ProfileScreen`. -/
structure ProfileState where
  profileData : Option ProfileData
  loading : Bool
deriving DecidableEq, Repr

/-- `fetchProfile`: skipped without a truthy token; `GET /api/profile`;
2xx stores the parsed record; 401 alerts "Session Expired" and logs out;
other statuses only log; exceptions alert a generic failure. -/
def fetchProfile (rt re : Bool) (resp : FetchResp ProfileData)
    (p : ProfileState) (w : World) : ProfileState × World :=
  if truthy w.state.token = false then (p, w)
  else
    let p1 := { p with loading := true }
    let w1 := { w with requests := w.requests ++
      [{ method := "GET", url := "/api/profile", bearer := w.state.token, body := none }] }
    let step : ProfileState × World :=
      match resp with
      | FetchResp.networkError =>
          (p1, { w1 with alerts := w1.alerts ++ [("Error", "Failed to load profile data")] })
      | FetchResp.response status body =>
        if respOk status then
          match body with
          | some data => ({ p1 with profileData := some data }, w1)
          | none => (p1, { w1 with alerts := w1.alerts ++ [("Error", "Failed to load profile data")] })
        else if status = 401 then
          (p1, logout rt re
            { w1 with alerts := w1.alerts ++ [("Session Expired", "Please login again")] })
        else (p1, w1)
    ({ step.1 with loading := false }, step.2)

/-! ## Session lifecycle as an event system

Reachable session states are the worlds produced by running a sequence of
operations (with their environment inputs) from the first-install world.
Screen-local states are supplied per event: they do not feed back into
the session state except through the operations themselves. -/

/-- Classification used by the write-failure claims: the request failed
with a network error or a non-2xx response. -/
def respFailed {α : Type} : FetchResp α → Bool
  | FetchResp.networkError => true
  | FetchResp.response status _ => !(respOk status)

/-- Well-formedness of a login response: when a 2xx body parses, its
`access_token` and `employee` fields are present or absent together. -/
def loginRespWF : LoginResp → Bool
  | LoginResp.response status (LoginBody.parsed tok emp _) =>
      !(respOk status) || (tok.isSome == emp.isSome)
  | _ => true

/-- One step of the client's lifecycle, together with its environment
inputs (backend responses, storage outcomes, screen-local state). -/
inductive AppEvent where
  | restore
  | restart
  | loginEv (cfg : Bool) (resp : LoginResp) (eid pwd : String)
  | handleLoginEv (cfg : Bool) (resp : LoginResp) (ls : LoginScreenState)
  | logoutEv (rt re : Bool)
  | fetchComplaintsEv (rt re : Bool) (resp : FetchResp (List Complaint))
      (isRefresh : Bool) (h : HomeState)
  | fetchDetailEv (rt re : Bool) (resp : FetchResp ComplaintDetail) (d : DetailState)
  | updateStatusEv (rt re : Bool) (putResp getResp : FetchResp ComplaintDetail)
      (newStatus : String) (d : DetailState)
  | uploadPhotoEv (rt re : Bool) (postResp getResp : FetchResp ComplaintDetail)
      (img : String) (d : DetailState)
  | fetchProfileEv (rt re : Bool) (resp : FetchResp ProfileData) (p : ProfileState)
deriving DecidableEq, Repr

/-- Effect of one event on the world (screen-local results are dropped:
they never feed back into the session). `restart` is a process restart:
in-memory state returns to its `useState` defaults, the store persists. -/
def applyEvent (parse : String → Option Employee) (stringify : Employee → String) :
    AppEvent → World → World
  | AppEvent.restore, w => checkAuthStatus parse w
  | AppEvent.restart, w => { w with state := initialAuthState }
  | AppEvent.loginEv cfg resp eid pwd, w => (login cfg stringify resp eid pwd w).1
  | AppEvent.handleLoginEv cfg resp ls, w => (handleLogin cfg stringify resp ls w).2
  | AppEvent.logoutEv rt re, w => logout rt re w
  | AppEvent.fetchComplaintsEv rt re resp ir h, w => (fetchComplaints rt re resp ir h w).2
  | AppEvent.fetchDetailEv rt re resp d, w => (fetchComplaintDetail rt re resp d w).2
  | AppEvent.updateStatusEv rt re pr gr ns d, w => (updateComplaintStatus rt re pr gr ns d w).2
  | AppEvent.uploadPhotoEv rt re pr gr img d, w => (uploadProgressPhoto rt re pr gr img d w).2
  | AppEvent.fetchProfileEv rt re resp p, w => (fetchProfile rt re resp p w).2

/-- Run a sequence of lifecycle events from a starting world. -/
def runEvents (parse : String → Option Employee) (stringify : Employee → String)
    (evs : List AppEvent) (w : World) : World :=
  evs.foldl (fun wx ev => applyEvent parse stringify ev wx) w

/-- Well-formedness of the external inputs of one event: login responses
must be well-formed; everything else is unconstrained. -/
def eventWF : AppEvent → Bool
  | AppEvent.loginEv _ resp _ _ => loginRespWF resp
  | AppEvent.handleLoginEv _ resp _ => loginRespWF resp
  | _ => true

/-- Strengthened session invariant: the in-memory token and employee are
present together, and any persisted employee record parses. -/
def SessionStoreInv (parse : String → Option Employee) (w : World) : Prop :=
  w.state.token.isSome = w.state.employee.isSome ∧
  ∀ s, w.store.employee_data = some s → (parse s).isSome = true

/-! ## Concrete fixtures used by witnesses and counterexamples -/

/-- Sample performance statistics. -/
def stats0 : PerformanceStats :=
  { total_complaints_resolved := 3, total_complaints_assigned := 5,
    resolution_rate := 60, last_activity := "2024-01-01" }

/-- Sample employee record. -/
def emp0 : Employee :=
  { id := "1", employee_id := "test123", name := "Alice", email := "a@x.y",
    department := "sanitation", contact_phone := "555", is_active := true,
    created_at := "2024-01-01", performance_stats := stats0 }

/-- Sample progress photo. -/
def photo0 : ProgressPhoto :=
  { image := "img0", note := some "n", timestamp := "2024-01-02",
    added_by := "Alice", employee_id := "test123" }

/-- Sample complaint detail record. -/
def c0 : ComplaintDetail :=
  { id := "c1", title := "Pothole", description := "Deep", citizen_name := "Bob",
    citizen_phone := "5550", citizen_email := none, category := "sanitation",
    priority := "high", status := "pending", color_code := "yellow",
    location_address := "Main St", location_coordinates := none,
    citizen_image := none, assigned_employee_id := none,
    assigned_employee_name := none, progress_photos := [photo0],
    created_at := "2024-01-01", updated_at := "2024-01-01" }

/-- Sample profile record. -/
def pd0 : ProfileData :=
  { id := "1", employee_id := "test123", name := "Alice", email := "a@x.y",
    department := "sanitation", contact_phone := "555", is_active := true,
    created_at := "2024-01-01", performance_stats := stats0 }

/-- An authenticated world: logged in as `emp0` with token `"tok"`, both
persisted entries present, no effects recorded yet. -/
def wAuth0 : World :=
  { state := { token := some "tok", employee := some emp0, isLoading := false }
    store := { auth_token := some "tok", employee_data := some "EMP" }
    alerts := []
    navs := []
    requests := [] }

/-- Detail screen showing `c0`. -/
def dC0 : DetailState :=
  { id := some "c1", complaint := some c0, loading := false, updating := false }

/-- Concrete model of `JSON.parse` on employee records: the only stored
serialization in the fixtures is `"EMP"`, which decodes to `emp0`. -/
def parse0 : String → Option Employee := fun s => if s = "EMP" then some emp0 else none

/-- Concrete model of `JSON.stringify` matching `parse0`. -/
def stringify0 : Employee → String := fun _ => "EMP"

/-! ## Helper lemmas -/

theorem respOk_401 : respOk 401 = false := by decide

theorem respOk_404 : respOk 404 = false := by decide

/-- `logout` changes nothing but the removed entries unless both removals
succeed, in which case it clears everything and navigates. -/
theorem logout_cases (rt re : Bool) (w : World) :
    logout rt re w =
      if rt then
        if re then
          { w with store := { auth_token := none, employee_data := none }
                   state := { w.state with token := none, employee := none }
                   navs := w.navs ++ ["/"] }
        else { w with store := { w.store with auth_token := none } }
      else w := by
  cases rt <;> cases re <;> rfl

/-! ## Claim theorems -/

/-- Claim C5, counterexample: when removing the persisted token fails,
`logout` changes nothing at all — in particular the in-memory state is
not cleared and no navigation happens, contradicting the claim that the
in-memory fields are cleared unconditionally. -/
theorem logout_remove_failure_clears_nothing :
    logout false true wAuth0 = wAuth0 ∧
    wAuth0.state.token = some "tok" ∧
    wAuth0.state.employee = some emp0 ∧
    wAuth0.navs = [] := by decide

/-- Claim C5, amended: `logout` clears both persisted entries, both
in-memory fields and navigates to the unauthenticated entry point when
both removals succeed; when removing the token entry fails the failure is
only logged and nothing is cleared; when removing the employee entry
fails, only the token entry has been removed and the in-memory state and
navigation are skipped. -/
theorem logout_effects_by_removal_outcome (rt re : Bool) (w : World) :
    (rt = true → re = true →
      (logout rt re w).state.token = none ∧
      (logout rt re w).state.employee = none ∧
      (logout rt re w).store.auth_token = none ∧
      (logout rt re w).store.employee_data = none ∧
      (logout rt re w).navs = w.navs ++ ["/"]) ∧
    (rt = false → logout rt re w = w) ∧
    (rt = true → re = false →
      (logout rt re w).store.auth_token = none ∧
      (logout rt re w).state = w.state ∧
      (logout rt re w).store.employee_data = w.store.employee_data ∧
      (logout rt re w).navs = w.navs) := by
  cases rt <;> cases re <;> simp [logout]

/-- Witness for C5's amended theorem at a concrete authenticated world. -/
theorem logout_effects_by_removal_outcome_witness :
    (logout true true wAuth0).state.token = none ∧
    (logout true true wAuth0).state.employee = none ∧
    (logout true true wAuth0).store.auth_token = none ∧
    (logout true true wAuth0).store.employee_data = none ∧
    (logout true true wAuth0).navs = wAuth0.navs ++ ["/"] :=
  (logout_effects_by_removal_outcome true true wAuth0).1 rfl rfl

/-- Claim C6: every API operation (complaint list fetch, complaint detail
fetch, status update, progress-photo upload, profile fetch) performs zero
network calls and returns without any state change when the session token
is absent. -/
theorem absent_token_skips_requests (w : World) (hnone : w.state.token = none)
    (rt re : Bool) (rc : FetchResp (List Complaint)) (isRefresh : Bool) (h : HomeState)
    (rd pr gr : FetchResp ComplaintDetail) (d : DetailState) (ns img : String)
    (rp : FetchResp ProfileData) (p : ProfileState) :
    fetchComplaints rt re rc isRefresh h w = (h, w) ∧
    fetchComplaintDetail rt re rd d w = (d, w) ∧
    updateComplaintStatus rt re pr gr ns d w = (d, w) ∧
    uploadProgressPhoto rt re pr gr img d w = (d, w) ∧
    fetchProfile rt re rp p w = (p, w) := by
  refine ⟨?_, ?_, ?_, ?_, ?_⟩ <;>
    simp [fetchComplaints, fetchComplaintDetail, updateComplaintStatus,
      uploadProgressPhoto, fetchProfile, truthy, hnone]

/-- Witness for C6 at the first-install world. -/
theorem absent_token_skips_requests_witness :
    fetchComplaints true true FetchResp.networkError false
        { complaints := [], loading := true, refreshing := false } initialWorld
      = ({ complaints := [], loading := true, refreshing := false }, initialWorld) ∧
    fetchComplaintDetail true true FetchResp.networkError dC0 initialWorld
      = (dC0, initialWorld) ∧
    updateComplaintStatus true true FetchResp.networkError FetchResp.networkError
        "active" dC0 initialWorld = (dC0, initialWorld) ∧
    uploadProgressPhoto true true FetchResp.networkError FetchResp.networkError
        "img" dC0 initialWorld = (dC0, initialWorld) ∧
    fetchProfile true true FetchResp.networkError
        { profileData := none, loading := true } initialWorld
      = ({ profileData := none, loading := true }, initialWorld) :=
  absent_token_skips_requests initialWorld rfl true true FetchResp.networkError false
    { complaints := [], loading := true, refreshing := false }
    FetchResp.networkError FetchResp.networkError FetchResp.networkError dC0 "active" "img"
    FetchResp.networkError { profileData := none, loading := true }

/-- Claim C10: if at startup exactly one persisted entry is present,
restore loads neither into memory — the session stays unauthenticated. -/
theorem restore_mismatched_store_unauthenticated (parse : String → Option Employee)
    (w : World) (hs : w.state = initialAuthState)
    (hone : w.store.auth_token.isSome ≠ w.store.employee_data.isSome) :
    (checkAuthStatus parse w).state.token = none ∧
    (checkAuthStatus parse w).state.employee = none ∧
    (checkAuthStatus parse w).state.isLoading = false := by
  unfold checkAuthStatus
  rcases ht : w.store.auth_token with _ | t <;>
    rcases he : w.store.employee_data with _ | e <;>
    simp_all [initialAuthState]

/-- Witness for C10: a store holding only a token. -/
theorem restore_mismatched_store_unauthenticated_witness :
    (checkAuthStatus parse0
        { state := initialAuthState
          store := { auth_token := some "tok", employee_data := none }
          alerts := [], navs := [], requests := [] }).state.token = none ∧
    (checkAuthStatus parse0
        { state := initialAuthState
          store := { auth_token := some "tok", employee_data := none }
          alerts := [], navs := [], requests := [] }).state.employee = none ∧
    (checkAuthStatus parse0
        { state := initialAuthState
          store := { auth_token := some "tok", employee_data := none }
          alerts := [], navs := [], requests := [] }).state.isLoading = false :=
  restore_mismatched_store_unauthenticated parse0 _ rfl (by decide)

/-- The login call always issues exactly one POST request with the
credentials it was given (helper shared by several claims). -/
theorem login_requests (stringify : Employee → String) (resp : LoginResp)
    (eid pwd : String) (w : World) :
    (login true stringify resp eid pwd w).1.requests
      = w.requests ++
        [{ method := "POST", url := "/api/auth/login", bearer := none,
           body := some (ReqBody.loginBody eid pwd) }] := by
  unfold login
  cases resp with
  | networkError => simp
  | response status body =>
    by_cases hok : respOk status
    · cases body with
      | malformed => simp [hok]
      | parsed tok emp detail =>
        cases tok with
        | none => simp [hok]
        | some t => cases emp with
          | none => simp [hok]
          | some e => simp [hok]
    · cases body <;> simp [hok]

/-- Claim C3: whenever login returns success, the in-memory session and
the persisted store hold the same returned token, the in-memory employee
is the returned record and the persisted entry is its serialization, and
the caller has been navigated to the authenticated area. -/
theorem login_success_read_after_write (cfg : Bool) (stringify : Employee → String)
    (resp : LoginResp) (eid pwd : String) (w : World)
    (hs : (login cfg stringify resp eid pwd w).2 = true) :
    ∃ t e,
      (login cfg stringify resp eid pwd w).1.state.token = some t ∧
      (login cfg stringify resp eid pwd w).1.store.auth_token = some t ∧
      (login cfg stringify resp eid pwd w).1.state.employee = some e ∧
      (login cfg stringify resp eid pwd w).1.store.employee_data = some (stringify e) ∧
      (login cfg stringify resp eid pwd w).1.navs = w.navs ++ ["/(tabs)/home"] := by
  unfold login at hs ⊢
  cases cfg
  · simp at hs
  · cases resp with
    | networkError => simp at hs
    | response status body =>
      by_cases hok : respOk status
      · cases body with
        | malformed => simp [hok] at hs
        | parsed tok emp detail =>
          cases tok with
          | none => simp [hok] at hs
          | some t =>
            cases emp with
            | none => simp [hok] at hs
            | some e => exact ⟨t, e, by simp [hok]⟩
      · cases body <;> simp [hok] at hs

/-- Witness for C3: the spec's example login against a
`200 {access_token: "tok1", employee}` response. -/
theorem login_success_read_after_write_witness :
    ∃ t e,
      (login true stringify0
          (LoginResp.response 200 (LoginBody.parsed (some "tok1") (some emp0) none))
          "test123" "test123" initialWorld).1.state.token = some t ∧
      (login true stringify0
          (LoginResp.response 200 (LoginBody.parsed (some "tok1") (some emp0) none))
          "test123" "test123" initialWorld).1.store.auth_token = some t ∧
      (login true stringify0
          (LoginResp.response 200 (LoginBody.parsed (some "tok1") (some emp0) none))
          "test123" "test123" initialWorld).1.state.employee = some e ∧
      (login true stringify0
          (LoginResp.response 200 (LoginBody.parsed (some "tok1") (some emp0) none))
          "test123" "test123" initialWorld).1.store.employee_data = some (stringify0 e) ∧
      (login true stringify0
          (LoginResp.response 200 (LoginBody.parsed (some "tok1") (some emp0) none))
          "test123" "test123" initialWorld).1.navs = initialWorld.navs ++ ["/(tabs)/home"] :=
  login_success_read_after_write true stringify0
    (LoginResp.response 200 (LoginBody.parsed (some "tok1") (some emp0) none))
    "test123" "test123" initialWorld (by decide)

/-- Claim C4: a login attempt answered by a non-2xx response returns
failure, leaves the in-memory token and employee, the persisted store and
the navigation history untouched, and alerts the server-provided `detail`
message when the body carries a non-empty one, otherwise a generic
message. -/
theorem login_failure_no_mutation (stringify : Employee → String)
    (status : Nat) (body : LoginBody) (eid pwd : String) (w : World)
    (hnok : respOk status = false) :
    (login true stringify (LoginResp.response status body) eid pwd w).2 = false ∧
    (login true stringify (LoginResp.response status body) eid pwd w).1.state.token
      = w.state.token ∧
    (login true stringify (LoginResp.response status body) eid pwd w).1.state.employee
      = w.state.employee ∧
    (login true stringify (LoginResp.response status body) eid pwd w).1.store = w.store ∧
    (login true stringify (LoginResp.response status body) eid pwd w).1.navs = w.navs ∧
    (∀ a b d, body = LoginBody.parsed a b (some d) → d ≠ "" →
      (login true stringify (LoginResp.response status body) eid pwd w).1.alerts
        = w.alerts ++ [("Login Failed", d)]) ∧
    (∀ a b, body = LoginBody.parsed a b none →
      (login true stringify (LoginResp.response status body) eid pwd w).1.alerts
        = w.alerts ++ [("Login Failed", "Invalid credentials")]) ∧
    (body = LoginBody.malformed →
      (login true stringify (LoginResp.response status body) eid pwd w).1.alerts
        = w.alerts ++ [("Error", "Failed to connect to server")]) := by
  unfold login
  cases body with
  | malformed => simp [hnok]
  | parsed tok emp detail =>
    cases detail with
    | none => simp [hnok]
    | some d =>
      by_cases hd : d = ""
      · subst hd; simp [hnok]
      · simp [hnok, hd]

/-- Witness for C4: the spec's example `401 {detail: "Invalid
credentials"}` response. -/
theorem login_failure_no_mutation_witness :
    (login true stringify0
        (LoginResp.response 401 (LoginBody.parsed none none (some "Invalid credentials")))
        "test123" "test123" wAuth0).2 = false ∧
    (login true stringify0
        (LoginResp.response 401 (LoginBody.parsed none none (some "Invalid credentials")))
        "test123" "test123" wAuth0).1.state.token = wAuth0.state.token ∧
    (login true stringify0
        (LoginResp.response 401 (LoginBody.parsed none none (some "Invalid credentials")))
        "test123" "test123" wAuth0).1.state.employee = wAuth0.state.employee ∧
    (login true stringify0
        (LoginResp.response 401 (LoginBody.parsed none none (some "Invalid credentials")))
        "test123" "test123" wAuth0).1.store = wAuth0.store ∧
    (login true stringify0
        (LoginResp.response 401 (LoginBody.parsed none none (some "Invalid credentials")))
        "test123" "test123" wAuth0).1.navs = wAuth0.navs ∧
    (∀ a b d,
      LoginBody.parsed (Option.none (α := String)) (Option.none (α := Employee))
          (some "Invalid credentials") = LoginBody.parsed a b (some d) → d ≠ "" →
      (login true stringify0
          (LoginResp.response 401 (LoginBody.parsed none none (some "Invalid credentials")))
          "test123" "test123" wAuth0).1.alerts
        = wAuth0.alerts ++ [("Login Failed", d)]) ∧
    (∀ a b,
      LoginBody.parsed (Option.none (α := String)) (Option.none (α := Employee))
          (some "Invalid credentials") = LoginBody.parsed a b none →
      (login true stringify0
          (LoginResp.response 401 (LoginBody.parsed none none (some "Invalid credentials")))
          "test123" "test123" wAuth0).1.alerts
        = wAuth0.alerts ++ [("Login Failed", "Invalid credentials")]) ∧
    (LoginBody.parsed (Option.none (α := String)) (Option.none (α := Employee))
        (some "Invalid credentials") = LoginBody.malformed →
      (login true stringify0
          (LoginResp.response 401 (LoginBody.parsed none none (some "Invalid credentials")))
          "test123" "test123" wAuth0).1.alerts
        = wAuth0.alerts ++ [("Error", "Failed to connect to server")]) :=
  login_failure_no_mutation stringify0 401
    (LoginBody.parsed none none (some "Invalid credentials")) "test123" "test123" wAuth0
    (by decide)

/-- Claim C9, counterexample: submitting the login form with password
`" pw "` issues the login call with the password exactly as entered, even
though its trimmed value differs — the arguments passed are not the
trimmed values. -/
theorem password_passed_untrimmed :
    (handleLogin true stringify0
        (LoginResp.response 401 (LoginBody.parsed none none none))
        { employeeId := "test123", password := " pw ", showPassword := false,
          isLoading := false }
        initialWorld).2.requests
      = [{ method := "POST", url := "/api/auth/login", bearer := none,
           body := some (ReqBody.loginBody "test123" " pw ") }] ∧
    jsTrim " pw " = "pw" ∧
    (" pw " : String) ≠ "pw" := by decide

/-- Claim C9, amended: attempts where either field trims to empty are
rejected with a validation alert before any login call; otherwise login
is invoked once with the trimmed employee id and the password exactly as
entered (untrimmed), both being non-empty after trimming. -/
theorem handleLogin_validation_and_args (stringify : Employee → String)
    (resp : LoginResp) (ls : LoginScreenState) (w : World) :
    (jsTrim ls.employeeId ≠ "" → jsTrim ls.password ≠ "" →
      (handleLogin true stringify resp ls w).2.requests
        = w.requests ++
          [{ method := "POST", url := "/api/auth/login", bearer := none,
             body := some (ReqBody.loginBody (jsTrim ls.employeeId) ls.password) }]) ∧
    ((jsTrim ls.employeeId = "" ∨ jsTrim ls.password = "") →
      (handleLogin true stringify resp ls w).1 = ls ∧
      (handleLogin true stringify resp ls w).2
        = { w with alerts := w.alerts ++
            [("Error", "Please enter both Employee ID and Password")] }) := by
  constructor
  · intro h1 h2
    unfold handleLogin
    simp only [h1, h2]
    have hreq := login_requests stringify resp (jsTrim ls.employeeId) ls.password w
    by_cases hres : (login true stringify resp (jsTrim ls.employeeId) ls.password w).2
    · simp [hres, hreq]
    · simp at hres
      simp [hres, hreq]
  · intro hor
    unfold handleLogin
    rcases hor with h | h <;> simp [h]

/-- Witness for C9's amended theorem: a submission whose fields need
trimming. -/
theorem handleLogin_validation_and_args_witness :
    (handleLogin true stringify0
        (LoginResp.response 401 (LoginBody.parsed none none none))
        { employeeId := " test123 ", password := " pw ", showPassword := false,
          isLoading := false }
        initialWorld).2.requests
      = initialWorld.requests ++
        [{ method := "POST", url := "/api/auth/login", bearer := none,
           body := some (ReqBody.loginBody
             (jsTrim (" test123 " : String)) (" pw " : String)) }] :=
  (handleLogin_validation_and_args stringify0
      (LoginResp.response 401 (LoginBody.parsed none none none))
      { employeeId := " test123 ", password := " pw ", showPassword := false,
        isLoading := false }
      initialWorld).1 (by decide) (by decide)

/-- Claim C1, counterexample: a 401 response to the status update leaves
the session fully intact — no session clearing, no "Session Expired"
notice, no redirect — only a generic error alert.  The claim that every
screen's 401 triggers logout-equivalent clearing is therefore false. -/
theorem update_401_does_not_clear_session :
    (updateComplaintStatus true true (FetchResp.response 401 none)
        (FetchResp.response 200 (some c0)) "active" dC0 wAuth0).2.state = wAuth0.state ∧
    (updateComplaintStatus true true (FetchResp.response 401 none)
        (FetchResp.response 200 (some c0)) "active" dC0 wAuth0).2.store = wAuth0.store ∧
    (updateComplaintStatus true true (FetchResp.response 401 none)
        (FetchResp.response 200 (some c0)) "active" dC0 wAuth0).2.alerts
      = [("Error", "Failed to update complaint status")] ∧
    (updateComplaintStatus true true (FetchResp.response 401 none)
        (FetchResp.response 200 (some c0)) "active" dC0 wAuth0).2.navs = [] := by decide

/-- Claim C1, amended: a 401 response to the complaint list fetch, the
complaint detail fetch or the profile fetch triggers the same clearing as
an explicit logout (with successful removals: both persisted entries and
both in-memory fields cleared, redirect to the unauthenticated entry
point) plus a "Session Expired" notice; a 401 to the status update or the
progress-photo upload is instead treated as a generic failure: an error
alert only, with session state, store and navigation untouched. -/
theorem amended_401_handling (w : World) (b1 : Option (List Complaint))
    (b2 b3 b4 : Option ComplaintDetail) (b5 : Option ProfileData)
    (getResp : FetchResp ComplaintDetail) (isRefresh : Bool)
    (h : HomeState) (d : DetailState) (p : ProfileState)
    (c : ComplaintDetail) (ns img : String)
    (ht : truthy w.state.token = true) (hid : truthy d.id = true)
    (hc : d.complaint = some c) :
    ((fetchComplaints true true (FetchResp.response 401 b1) isRefresh h w).2.state.token
        = none ∧
     (fetchComplaints true true (FetchResp.response 401 b1) isRefresh h w).2.state.employee
        = none ∧
     (fetchComplaints true true (FetchResp.response 401 b1) isRefresh h w).2.store.auth_token
        = none ∧
     (fetchComplaints true true (FetchResp.response 401 b1) isRefresh h w).2.store.employee_data
        = none ∧
     (fetchComplaints true true (FetchResp.response 401 b1) isRefresh h w).2.alerts
        = w.alerts ++ [("Session Expired", "Please login again")] ∧
     (fetchComplaints true true (FetchResp.response 401 b1) isRefresh h w).2.navs
        = w.navs ++ ["/"]) ∧
    ((fetchComplaintDetail true true (FetchResp.response 401 b2) d w).2.state.token = none ∧
     (fetchComplaintDetail true true (FetchResp.response 401 b2) d w).2.state.employee = none ∧
     (fetchComplaintDetail true true (FetchResp.response 401 b2) d w).2.store.auth_token
        = none ∧
     (fetchComplaintDetail true true (FetchResp.response 401 b2) d w).2.store.employee_data
        = none ∧
     (fetchComplaintDetail true true (FetchResp.response 401 b2) d w).2.alerts
        = w.alerts ++ [("Session Expired", "Please login again")] ∧
     (fetchComplaintDetail true true (FetchResp.response 401 b2) d w).2.navs
        = w.navs ++ ["/"]) ∧
    ((fetchProfile true true (FetchResp.response 401 b5) p w).2.state.token = none ∧
     (fetchProfile true true (FetchResp.response 401 b5) p w).2.state.employee = none ∧
     (fetchProfile true true (FetchResp.response 401 b5) p w).2.store.auth_token = none ∧
     (fetchProfile true true (FetchResp.response 401 b5) p w).2.store.employee_data = none ∧
     (fetchProfile true true (FetchResp.response 401 b5) p w).2.alerts
        = w.alerts ++ [("Session Expired", "Please login again")] ∧
     (fetchProfile true true (FetchResp.response 401 b5) p w).2.navs = w.navs ++ ["/"]) ∧
    ((updateComplaintStatus true true (FetchResp.response 401 b3) getResp ns d w).2.state
        = w.state ∧
     (updateComplaintStatus true true (FetchResp.response 401 b3) getResp ns d w).2.store
        = w.store ∧
     (updateComplaintStatus true true (FetchResp.response 401 b3) getResp ns d w).2.alerts
        = w.alerts ++ [("Error", "Failed to update complaint status")] ∧
     (updateComplaintStatus true true (FetchResp.response 401 b3) getResp ns d w).2.navs
        = w.navs) ∧
    ((uploadProgressPhoto true true (FetchResp.response 401 b4) getResp img d w).2.state
        = w.state ∧
     (uploadProgressPhoto true true (FetchResp.response 401 b4) getResp img d w).2.store
        = w.store ∧
     (uploadProgressPhoto true true (FetchResp.response 401 b4) getResp img d w).2.alerts
        = w.alerts ++ [("Error", "Failed to upload progress photo")] ∧
     (uploadProgressPhoto true true (FetchResp.response 401 b4) getResp img d w).2.navs
        = w.navs) := by
  refine ⟨?_, ?_, ?_, ?_, ?_⟩ <;>
    simp [fetchComplaints, fetchComplaintDetail, fetchProfile, updateComplaintStatus,
      uploadProgressPhoto, logout, ht, hid, hc, respOk_401]

/-- Witness for C1's amended theorem at a concrete authenticated world. -/
theorem amended_401_handling_witness :
    (fetchComplaints true true (FetchResp.response 401 none) false
        { complaints := [], loading := false, refreshing := false } wAuth0).2.state.token
      = none ∧
    (updateComplaintStatus true true (FetchResp.response 401 none)
        (FetchResp.response 200 (some c0)) "active" dC0 wAuth0).2.state = wAuth0.state :=
  ⟨(amended_401_handling wAuth0 none none none none none (FetchResp.response 200 (some c0))
      false { complaints := [], loading := false, refreshing := false } dC0
      { profileData := none, loading := false } c0 "active" "img"
      (by decide) (by decide) (by decide)).1.1,
   (amended_401_handling wAuth0 none none none none none (FetchResp.response 200 (some c0))
      false { complaints := [], loading := false, refreshing := false } dC0
      { profileData := none, loading := false } c0 "active" "img"
      (by decide) (by decide) (by decide)).2.2.2.1.1⟩

/-- Claim C7: the status update sends a PUT whose body carries the new
status plus the current employee's identifier and name as the assignment;
on a 2xx response it issues a follow-up GET for the complaint; the
response body of the PUT itself is ignored, and the displayed snapshot is
whatever the follow-up GET returns. -/
theorem update_status_body_and_refetch (rt re : Bool) (st : Nat)
    (pb : Option ComplaintDetail) (getResp : FetchResp ComplaintDetail)
    (ns : String) (d : DetailState) (w : World) (c : ComplaintDetail) (e : Employee)
    (ht : truthy w.state.token = true) (hid : truthy d.id = true)
    (hc : d.complaint = some c) (he : w.state.employee = some e)
    (hok : respOk st = true) :
    (updateComplaintStatus rt re (FetchResp.response st pb) getResp ns d w).2.requests
      = w.requests ++
        [{ method := "PUT", url := "/api/complaints/" ++ c.id, bearer := w.state.token,
           body := some (ReqBody.statusUpdate ns (some e.employee_id) (some e.name)) },
         { method := "GET", url := "/api/complaints/" ++ d.id.getD "",
           bearer := w.state.token, body := none }] ∧
    updateComplaintStatus rt re (FetchResp.response st pb) getResp ns d w
      = updateComplaintStatus rt re (FetchResp.response st none) getResp ns d w ∧
    (∀ s2 data, getResp = FetchResp.response s2 (some data) → respOk s2 = true →
      (updateComplaintStatus rt re (FetchResp.response st pb) getResp ns d w).1.complaint
        = some data) := by
  refine ⟨?_, rfl, ?_⟩
  · cases getResp with
    | networkError =>
        simp [updateComplaintStatus, fetchComplaintDetail, ht, hid, hc, he, hok]
    | response s2 b2 =>
      by_cases h2 : respOk s2
      · cases b2 <;>
          simp [updateComplaintStatus, fetchComplaintDetail, ht, hid, hc, he, hok, h2]
      · by_cases h401 : s2 = 401
        · subst h401
          simp [updateComplaintStatus, fetchComplaintDetail, logout_cases, ht, hid, hc,
            he, hok, respOk_401]
          cases rt <;> cases re <;> simp
        · by_cases h404 : s2 = 404
          · subst h404
            simp [updateComplaintStatus, fetchComplaintDetail, ht, hid, hc, he, hok,
              respOk_404, h401]
          · simp [updateComplaintStatus, fetchComplaintDetail, ht, hid, hc, he, hok, h2,
              h401, h404]
  · intro s2 data hget hok2
    subst hget
    simp [updateComplaintStatus, fetchComplaintDetail, ht, hid, hc, he, hok, hok2]

/-- Witness for C7 at a concrete authenticated world. -/
theorem update_status_body_and_refetch_witness :
    (updateComplaintStatus true true (FetchResp.response 200 (some c0))
        (FetchResp.response 200 (some c0)) "active" dC0 wAuth0).2.requests
      = wAuth0.requests ++
        [{ method := "PUT", url := "/api/complaints/" ++ c0.id, bearer := wAuth0.state.token,
           body := some (ReqBody.statusUpdate "active"
             (some emp0.employee_id) (some emp0.name)) },
         { method := "GET", url := "/api/complaints/" ++ dC0.id.getD "",
           bearer := wAuth0.state.token, body := none }] ∧
    updateComplaintStatus true true (FetchResp.response 200 (some c0))
        (FetchResp.response 200 (some c0)) "active" dC0 wAuth0
      = updateComplaintStatus true true (FetchResp.response 200 none)
          (FetchResp.response 200 (some c0)) "active" dC0 wAuth0 ∧
    (∀ s2 data,
      FetchResp.response 200 (some c0) = FetchResp.response s2 (some data) →
      respOk s2 = true →
      (updateComplaintStatus true true (FetchResp.response 200 (some c0))
          (FetchResp.response 200 (some c0)) "active" dC0 wAuth0).1.complaint
        = some data) :=
  update_status_body_and_refetch true true 200 (some c0)
    (FetchResp.response 200 (some c0)) "active" dC0 wAuth0 c0 emp0
    (by decide) (by decide) (by decide) (by decide) (by decide)

/-- Claim C8: a failing write (non-2xx response or network error to the
status update or the progress-photo upload) leaves the displayed
complaint snapshot unchanged and reports an error alert. -/
theorem failed_write_keeps_snapshot (rt re : Bool)
    (writeResp getResp : FetchResp ComplaintDetail) (ns img : String)
    (d : DetailState) (w : World) (c : ComplaintDetail)
    (ht : truthy w.state.token = true) (hc : d.complaint = some c)
    (hfail : respFailed writeResp = true) :
    (updateComplaintStatus rt re writeResp getResp ns d w).1.complaint = d.complaint ∧
    (∃ msg, (updateComplaintStatus rt re writeResp getResp ns d w).2.alerts
      = w.alerts ++ [("Error", msg)]) ∧
    (uploadProgressPhoto rt re writeResp getResp img d w).1.complaint = d.complaint ∧
    (∃ msg, (uploadProgressPhoto rt re writeResp getResp img d w).2.alerts
      = w.alerts ++ [("Error", msg)]) := by
  cases writeResp with
  | networkError =>
    exact ⟨by simp [updateComplaintStatus, ht, hc],
      ⟨"Failed to update complaint", by simp [updateComplaintStatus, ht, hc]⟩,
      by simp [uploadProgressPhoto, ht, hc],
      ⟨"Failed to upload photo", by simp [uploadProgressPhoto, ht, hc]⟩⟩
  | response st b =>
    have hnok : respOk st = false := by
      simpa [respFailed] using hfail
    exact ⟨by simp [updateComplaintStatus, ht, hc, hnok],
      ⟨"Failed to update complaint status", by simp [updateComplaintStatus, ht, hc, hnok]⟩,
      by simp [uploadProgressPhoto, ht, hc, hnok],
      ⟨"Failed to upload progress photo", by simp [uploadProgressPhoto, ht, hc, hnok]⟩⟩

/-- Witness for C8: a 500 response to both writes. -/
theorem failed_write_keeps_snapshot_witness :
    (updateComplaintStatus true true (FetchResp.response 500 none)
        (FetchResp.response 200 (some c0)) "active" dC0 wAuth0).1.complaint
      = dC0.complaint ∧
    (∃ msg, (updateComplaintStatus true true (FetchResp.response 500 none)
        (FetchResp.response 200 (some c0)) "active" dC0 wAuth0).2.alerts
      = wAuth0.alerts ++ [("Error", msg)]) ∧
    (uploadProgressPhoto true true (FetchResp.response 500 none)
        (FetchResp.response 200 (some c0)) "img" dC0 wAuth0).1.complaint
      = dC0.complaint ∧
    (∃ msg, (uploadProgressPhoto true true (FetchResp.response 500 none)
        (FetchResp.response 200 (some c0)) "img" dC0 wAuth0).2.alerts
      = wAuth0.alerts ++ [("Error", msg)]) :=
  failed_write_keeps_snapshot true true (FetchResp.response 500 none)
    (FetchResp.response 200 (some c0)) "active" "img" dC0 wAuth0 c0
    (by decide) (by decide) (by decide)

/-! ## Session pairing invariant (C2) -/

/-- The invariant only reads the auth state and the store. -/
theorem SessionStoreInv_of_eq (parse : String → Option Employee) (w w2 : World)
    (hstate : w2.state = w.state) (hstore : w2.store = w.store)
    (h : SessionStoreInv parse w) : SessionStoreInv parse w2 := by
  rcases h with ⟨h1, h2⟩
  constructor
  · rw [hstate]; exact h1
  · rw [hstore]; exact h2

theorem logout_SessionStoreInv (parse : String → Option Employee) (rt re : Bool)
    (w : World) (h : SessionStoreInv parse w) :
    SessionStoreInv parse (logout rt re w) := by
  rcases h with ⟨h1, h2⟩
  cases rt <;> cases re <;> simp_all [SessionStoreInv, logout]

theorem checkAuthStatus_SessionStoreInv (parse : String → Option Employee) (w : World)
    (h : SessionStoreInv parse w) :
    SessionStoreInv parse (checkAuthStatus parse w) := by
  rcases h with ⟨h1, h2⟩
  unfold checkAuthStatus
  rcases hA : w.store.auth_token with _ | t <;>
    rcases hE : w.store.employee_data with _ | e
  · exact ⟨h1, fun s hs => h2 s hs⟩
  · exact ⟨h1, fun s hs => h2 s hs⟩
  · exact ⟨h1, fun s hs => h2 s hs⟩
  · have hp : (parse e).isSome = true := h2 e hE
    rcases hpe : parse e with _ | emp
    · rw [hpe] at hp; simp at hp
    · by_cases hne : (t != "" && e != "") = true
      · refine ⟨?_, fun s hs => h2 s hs⟩
        simp [hA, hE, hne, hpe]
      · refine ⟨?_, fun s hs => h2 s hs⟩
        simp only [hA, hE]
        rw [if_neg (by simpa using hne)]
        exact h1

theorem login_SessionStoreInv (parse : String → Option Employee)
    (stringify : Employee → String)
    (hrt : ∀ e, (parse (stringify e)).isSome = true)
    (cfg : Bool) (resp : LoginResp) (eid pwd : String) (w : World)
    (hwf : loginRespWF resp = true) (h : SessionStoreInv parse w) :
    SessionStoreInv parse (login cfg stringify resp eid pwd w).1 := by
  rcases h with ⟨h1, h2⟩
  unfold login
  cases cfg with
  | false => exact ⟨h1, fun s hs => h2 s hs⟩
  | true =>
    cases resp with
    | networkError => exact ⟨h1, fun s hs => h2 s hs⟩
    | response status body =>
      by_cases hok : respOk status
      · cases body with
        | malformed => simpa [SessionStoreInv, hok] using ⟨h1, fun s hs => h2 s hs⟩
        | parsed tok emp detail =>
          have hpair : tok.isSome = emp.isSome := by
            simp [loginRespWF, hok] at hwf
            exact hwf
          cases tok with
          | none =>
            have hemp : emp = none := by
              cases emp
              · rfl
              · simp at hpair
            subst hemp
            refine ⟨?_, ?_⟩ <;> simp [SessionStoreInv, hok]
            exact fun s hs => h2 s hs
          | some t =>
            obtain ⟨e, he⟩ : ∃ e, emp = some e := by
              cases emp
              · simp at hpair
              · exact ⟨_, rfl⟩
            subst he
            refine ⟨?_, ?_⟩ <;> simp [SessionStoreInv, hok]
            exact hrt e
      · cases body <;> simpa [SessionStoreInv, hok] using ⟨h1, fun s hs => h2 s hs⟩

theorem fetchComplaints_SessionStoreInv (parse : String → Option Employee) (rt re : Bool)
    (resp : FetchResp (List Complaint)) (isRefresh : Bool) (hs : HomeState) (w : World)
    (hinv : SessionStoreInv parse w) :
    SessionStoreInv parse (fetchComplaints rt re resp isRefresh hs w).2 := by
  rcases hinv with ⟨h1, h2⟩
  unfold fetchComplaints
  by_cases ht : truthy w.state.token = false
  · simpa [ht] using ⟨h1, h2⟩
  · cases resp with
    | networkError => simpa [ht] using ⟨h1, h2⟩
    | response status body =>
      by_cases hok : respOk status
      · cases body <;> simpa [ht, hok] using ⟨h1, h2⟩
      · by_cases h401 : status = 401
        · subst h401
          simp only [ht, hok, Bool.false_eq_true, if_false, ite_false, if_true, ite_true,
            eq_self_iff_true, if_pos, reduceIte]
          simp [ht, hok]
          exact logout_SessionStoreInv parse rt re _
            (SessionStoreInv_of_eq parse w _ rfl rfl ⟨h1, h2⟩)
        · simpa [ht, hok, h401] using ⟨h1, h2⟩

theorem fetchComplaintDetail_SessionStoreInv (parse : String → Option Employee)
    (rt re : Bool) (resp : FetchResp ComplaintDetail) (d : DetailState) (w : World)
    (hinv : SessionStoreInv parse w) :
    SessionStoreInv parse (fetchComplaintDetail rt re resp d w).2 := by
  rcases hinv with ⟨h1, h2⟩
  unfold fetchComplaintDetail
  by_cases ht : truthy w.state.token = false ∨ truthy d.id = false
  · simpa [ht] using ⟨h1, h2⟩
  · cases resp with
    | networkError => simpa [ht] using ⟨h1, h2⟩
    | response status body =>
      by_cases hok : respOk status
      · cases body <;> simpa [ht, hok] using ⟨h1, h2⟩
      · by_cases h401 : status = 401
        · subst h401
          simp [ht, hok]
          exact logout_SessionStoreInv parse rt re _
            (SessionStoreInv_of_eq parse w _ rfl rfl ⟨h1, h2⟩)
        · by_cases h404 : status = 404
          · subst h404
            simpa [ht, hok, h401] using ⟨h1, h2⟩
          · simpa [ht, hok, h401, h404] using ⟨h1, h2⟩

theorem fetchProfile_SessionStoreInv (parse : String → Option Employee) (rt re : Bool)
    (resp : FetchResp ProfileData) (p : ProfileState) (w : World)
    (hinv : SessionStoreInv parse w) :
    SessionStoreInv parse (fetchProfile rt re resp p w).2 := by
  rcases hinv with ⟨h1, h2⟩
  unfold fetchProfile
  by_cases ht : truthy w.state.token = false
  · simpa [ht] using ⟨h1, h2⟩
  · cases resp with
    | networkError => simpa [ht] using ⟨h1, h2⟩
    | response status body =>
      by_cases hok : respOk status
      · cases body <;> simpa [ht, hok] using ⟨h1, h2⟩
      · by_cases h401 : status = 401
        · subst h401
          simp [ht, hok]
          exact logout_SessionStoreInv parse rt re _
            (SessionStoreInv_of_eq parse w _ rfl rfl ⟨h1, h2⟩)
        · simpa [ht, hok, h401] using ⟨h1, h2⟩

theorem updateComplaintStatus_SessionStoreInv (parse : String → Option Employee)
    (rt re : Bool) (putResp getResp : FetchResp ComplaintDetail) (ns : String)
    (d : DetailState) (w : World) (hinv : SessionStoreInv parse w) :
    SessionStoreInv parse (updateComplaintStatus rt re putResp getResp ns d w).2 := by
  have ⟨h1, h2⟩ := hinv
  unfold updateComplaintStatus
  by_cases ht : truthy w.state.token = false
  · simpa [ht] using ⟨h1, h2⟩
  · rcases hd : d.complaint with _ | c
    · simpa [ht, hd] using ⟨h1, h2⟩
    · cases putResp with
      | networkError => simpa [ht, hd] using ⟨h1, h2⟩
      | response status b =>
        by_cases hok : respOk status
        · simp [ht, hd, hok]
          exact SessionStoreInv_of_eq parse _ _ rfl rfl
            (fetchComplaintDetail_SessionStoreInv parse rt re getResp _ _
              (SessionStoreInv_of_eq parse w _ rfl rfl ⟨h1, h2⟩))
        · simpa [ht, hd, hok] using ⟨h1, h2⟩

theorem uploadProgressPhoto_SessionStoreInv (parse : String → Option Employee)
    (rt re : Bool) (postResp getResp : FetchResp ComplaintDetail) (img : String)
    (d : DetailState) (w : World) (hinv : SessionStoreInv parse w) :
    SessionStoreInv parse (uploadProgressPhoto rt re postResp getResp img d w).2 := by
  have ⟨h1, h2⟩ := hinv
  unfold uploadProgressPhoto
  by_cases ht : truthy w.state.token = false
  · simpa [ht] using ⟨h1, h2⟩
  · rcases hd : d.complaint with _ | c
    · simpa [ht, hd] using ⟨h1, h2⟩
    · cases postResp with
      | networkError => simpa [ht, hd] using ⟨h1, h2⟩
      | response status b =>
        by_cases hok : respOk status
        · simp [ht, hd, hok]
          exact SessionStoreInv_of_eq parse _ _ rfl rfl
            (fetchComplaintDetail_SessionStoreInv parse rt re getResp _ _
              (SessionStoreInv_of_eq parse w _ rfl rfl ⟨h1, h2⟩))
        · simpa [ht, hd, hok] using ⟨h1, h2⟩

theorem handleLogin_SessionStoreInv (parse : String → Option Employee)
    (stringify : Employee → String)
    (hrt : ∀ e, (parse (stringify e)).isSome = true)
    (cfg : Bool) (resp : LoginResp) (ls : LoginScreenState) (w : World)
    (hwf : loginRespWF resp = true) (h : SessionStoreInv parse w) :
    SessionStoreInv parse (handleLogin cfg stringify resp ls w).2 := by
  unfold handleLogin
  by_cases h1 : jsTrim ls.employeeId = ""
  · simpa [h1] using ⟨h.1, h.2⟩
  · by_cases h2 : jsTrim ls.password = ""
    · simpa [h1, h2] using ⟨h.1, h.2⟩
    · have hlog := login_SessionStoreInv parse stringify hrt cfg resp
        (jsTrim ls.employeeId) ls.password w hwf h
      by_cases hres : (login cfg stringify resp (jsTrim ls.employeeId) ls.password w).2 = true
      · simpa [h1, h2, hres] using hlog
      · simp only [Bool.not_eq_true] at hres
        simpa [h1, h2, hres] using hlog

theorem applyEvent_SessionStoreInv (parse : String → Option Employee)
    (stringify : Employee → String)
    (hrt : ∀ e, (parse (stringify e)).isSome = true)
    (ev : AppEvent) (w : World) (hwf : eventWF ev = true)
    (hinv : SessionStoreInv parse w) :
    SessionStoreInv parse (applyEvent parse stringify ev w) := by
  cases ev with
  | restore => exact checkAuthStatus_SessionStoreInv parse w hinv
  | restart => exact ⟨rfl, hinv.2⟩
  | loginEv cfg resp eid pwd =>
      exact login_SessionStoreInv parse stringify hrt cfg resp eid pwd w hwf hinv
  | handleLoginEv cfg resp ls =>
      exact handleLogin_SessionStoreInv parse stringify hrt cfg resp ls w hwf hinv
  | logoutEv rt re => exact logout_SessionStoreInv parse rt re w hinv
  | fetchComplaintsEv rt re resp ir hsc =>
      exact fetchComplaints_SessionStoreInv parse rt re resp ir hsc w hinv
  | fetchDetailEv rt re resp d =>
      exact fetchComplaintDetail_SessionStoreInv parse rt re resp d w hinv
  | updateStatusEv rt re pr gr ns d =>
      exact updateComplaintStatus_SessionStoreInv parse rt re pr gr ns d w hinv
  | uploadPhotoEv rt re pr gr img d =>
      exact uploadProgressPhoto_SessionStoreInv parse rt re pr gr img d w hinv
  | fetchProfileEv rt re resp p =>
      exact fetchProfile_SessionStoreInv parse rt re resp p w hinv

/-- Claim C2, counterexample: a single login answered by a 2xx body that
carries an `access_token` but no `employee` field (a reachable login
outcome) leaves the token present and the employee absent. -/
theorem malformed_login_breaks_pairing :
    (runEvents parse0 stringify0
        [AppEvent.loginEv true
          (LoginResp.response 200 (LoginBody.parsed (some "t") none none))
          "test123" "test123"] initialWorld).state.token = some "t" ∧
    (runEvents parse0 stringify0
        [AppEvent.loginEv true
          (LoginResp.response 200 (LoginBody.parsed (some "t") none none))
          "test123" "test123"] initialWorld).state.employee = none := by decide

/-- Claim C2, amended: in every session state reachable from first
install through restores, restarts, login attempts, logouts and
screen-level requests (including 401 handling), the in-memory token and
employee are present together or absent together — provided every parsed
2xx login body carries `access_token` and `employee` together and the
`JSON.parse`/`JSON.stringify` pair round-trips; a 2xx login body with a
token but no employee record breaks the pairing. -/
theorem session_pairing_invariant (parse : String → Option Employee)
    (stringify : Employee → String)
    (hrt : ∀ e, (parse (stringify e)).isSome = true)
    (evs : List AppEvent) (hwf : ∀ ev ∈ evs, eventWF ev = true) :
    (runEvents parse stringify evs initialWorld).state.token.isSome
      = (runEvents parse stringify evs initialWorld).state.employee.isSome := by
  have key : ∀ (l : List AppEvent) (w : World), (∀ ev ∈ l, eventWF ev = true) →
      SessionStoreInv parse w → SessionStoreInv parse (runEvents parse stringify l w) := by
    intro l
    induction l with
    | nil => intro w _ hinv; simpa [runEvents] using hinv
    | cons ev rest ih =>
      intro w hwfl hinv
      have hev : eventWF ev = true := hwfl ev (List.mem_cons_self ev rest)
      have hrest : ∀ x ∈ rest, eventWF x = true := fun x hx =>
        hwfl x (List.mem_cons_of_mem ev hx)
      have step := applyEvent_SessionStoreInv parse stringify hrt ev w hev hinv
      simpa [runEvents] using ih (applyEvent parse stringify ev w) hrest step
  exact (key evs initialWorld hwf
    ⟨rfl, fun s hs => by simp [initialWorld] at hs⟩).1

/-- Event trace used by the C2 witness: restore on an empty store, a
successful well-formed login, a restart and restore, a 401-triggered
expiry on the complaint list, and a logout whose second removal fails. -/
def evsW : List AppEvent :=
  [AppEvent.restore,
   AppEvent.loginEv true
     (LoginResp.response 200 (LoginBody.parsed (some "tok1") (some emp0) none))
     "test123" "test123",
   AppEvent.restart,
   AppEvent.restore,
   AppEvent.fetchComplaintsEv true true (FetchResp.response 401 none) false
     { complaints := [], loading := false, refreshing := false },
   AppEvent.logoutEv true false]

/-- Witness for C2's amended theorem on a concrete well-formed trace. -/
theorem session_pairing_invariant_witness :
    (runEvents parse0 stringify0 evsW initialWorld).state.token.isSome
      = (runEvents parse0 stringify0 evsW initialWorld).state.employee.isSome :=
  session_pairing_invariant parse0 stringify0 (fun _ => rfl) evsW (by decide)

end CivicIssues
